import Mathlib

/-!
Shallow embedding of the request-handling core of `podman-autoupdate-hook`
(`src/main.rs` and `src/headers.rs`): the authentication decision taken by
`handler`, the update-command invocation and output classification, and the
rate-limit key extractor `UserToken::extract`.

Bytes are modelled as `Nat` (values below 256 in every real execution), the
request body stream as a list of chunks each of which either delivers bytes
(`Except.ok`) or fails (`Except.error`, a client disconnect).  The SHA-256
digest computed by the `sha2` crate is implemented concretely below, so every
definition is executable.
-/

namespace PodmanHook

/-! ## SHA-256 (model of the `sha2` crate usage: update secret, update body
chunks in order, finalize, hex-encode) -/

def w32 : Nat := 4294967296

def rotr (n x : Nat) : Nat := ((x >>> n) ||| (x <<< (32 - n))) % w32

def bigSigma0 (x : Nat) : Nat := (rotr 2 x) ^^^ (rotr 13 x) ^^^ (rotr 22 x)

def bigSigma1 (x : Nat) : Nat := (rotr 6 x) ^^^ (rotr 11 x) ^^^ (rotr 25 x)

def smallSigma0 (x : Nat) : Nat := (rotr 7 x) ^^^ (rotr 18 x) ^^^ (x >>> 3)

def smallSigma1 (x : Nat) : Nat := (rotr 17 x) ^^^ (rotr 19 x) ^^^ (x >>> 10)

def chf (x y z : Nat) : Nat := (x &&& y) ^^^ ((x ^^^ 4294967295) &&& z)

def majf (x y z : Nat) : Nat := (x &&& y) ^^^ (x &&& z) ^^^ (y &&& z)

def shaK : List Nat :=
  [1116352408, 1899447441, 3049323471, 3921009573, 961987163,
   1508970993, 2453635748, 2870763221, 3624381080, 310598401,
   607225278, 1426881987, 1925078388, 2162078206, 2614888103,
   3248222580, 3835390401, 4022224774, 264347078, 604807628,
   770255983, 1249150122, 1555081692, 1996064986, 2554220882,
   2821834349, 2952996808, 3210313671, 3336571891, 3584528711,
   113926993, 338241895, 666307205, 773529912, 1294757372,
   1396182291, 1695183700, 1986661051, 2177026350, 2456956037,
   2730485921, 2820302411, 3259730800, 3345764771, 3516065817,
   3600352804, 4094571909, 275423344, 430227734, 506948616,
   659060556, 883997877, 958139571, 1322822218, 1537002063,
   1747873779, 1955562222, 2024104815, 2227730452, 2361852424,
   2428436474, 2756734187, 3204031479, 3329325298]

structure Digest8 where
  a : Nat
  b : Nat
  c : Nat
  d : Nat
  e : Nat
  f : Nat
  g : Nat
  h : Nat
deriving DecidableEq, Repr

def initH : Digest8 :=
  ⟨1779033703, 3144134277, 1013904242, 2773480762,
   1359893119, 2600822924, 528734635, 1541459225⟩

def lenBytes (bitLen : Nat) : List Nat :=
  [(bitLen >>> 56) % 256, (bitLen >>> 48) % 256, (bitLen >>> 40) % 256,
   (bitLen >>> 32) % 256, (bitLen >>> 24) % 256, (bitLen >>> 16) % 256,
   (bitLen >>> 8) % 256, bitLen % 256]

def padMessage (msg : List Nat) : List Nat :=
  msg ++ 128 :: List.replicate ((119 - msg.length % 64) % 64) 0
      ++ lenBytes (msg.length * 8)

def blockWords (block : List Nat) : List Nat :=
  (List.range 16).map fun t =>
    ((block.getD (4 * t) 0) <<< 24) ||| ((block.getD (4 * t + 1) 0) <<< 16) |||
    ((block.getD (4 * t + 2) 0) <<< 8) ||| block.getD (4 * t + 3) 0

def extendW (w : List Nat) : List Nat :=
  (List.range 48).foldl (fun acc _ =>
    let n := acc.length
    acc ++ [(smallSigma1 (acc.getD (n - 2) 0) + acc.getD (n - 7) 0 +
             smallSigma0 (acc.getD (n - 15) 0) + acc.getD (n - 16) 0) % w32]) w

def compressRound (st : Digest8) (kw : Nat × Nat) : Digest8 :=
  let t1 := (st.h + bigSigma1 st.e + chf st.e st.f st.g + kw.1 + kw.2) % w32
  let t2 := (bigSigma0 st.a + majf st.a st.b st.c) % w32
  ⟨(t1 + t2) % w32, st.a, st.b, st.c, (st.d + t1) % w32, st.e, st.f, st.g⟩

def processBlock (hs : Digest8) (block : List Nat) : Digest8 :=
  let st := (shaK.zip (extendW (blockWords block))).foldl compressRound hs
  ⟨(hs.a + st.a) % w32, (hs.b + st.b) % w32, (hs.c + st.c) % w32,
   (hs.d + st.d) % w32, (hs.e + st.e) % w32, (hs.f + st.f) % w32,
   (hs.g + st.g) % w32, (hs.h + st.h) % w32⟩

def wordBytes (w : Nat) : List Nat :=
  [(w >>> 24) % 256, (w >>> 16) % 256, (w >>> 8) % 256, w % 256]

def sha256 (msg : List Nat) : List Nat :=
  let padded := padMessage msg
  let hs := (List.range (padded.length / 64)).foldl
    (fun hs i => processBlock hs ((padded.drop (64 * i)).take 64)) initH
  wordBytes hs.a ++ wordBytes hs.b ++ wordBytes hs.c ++ wordBytes hs.d ++
  wordBytes hs.e ++ wordBytes hs.f ++ wordBytes hs.g ++ wordBytes hs.h

/-! ## Hex encoding (`hex::encode`, lowercase) and UTF-8 bytes of a string -/

def hexDigit (n : Nat) : Char :=
  if n < 10 then Char.ofNat (48 + n) else Char.ofNat (87 + n)

def hexEncodeChars : List Nat → List Char
  | [] => []
  | b :: r => hexDigit (b / 16) :: hexDigit (b % 16) :: hexEncodeChars r

def hexEncode (bytes : List Nat) : String := ⟨hexEncodeChars bytes⟩

def charUtf8 (c : Char) : List Nat :=
  let n := c.toNat
  if n < 128 then [n]
  else if n < 2048 then [192 + n / 64, 128 + n % 64]
  else if n < 65536 then [224 + n / 4096, 128 + (n / 64) % 64, 128 + n % 64]
  else [240 + n / 262144, 128 + (n / 4096) % 64, 128 + (n / 64) % 64, 128 + n % 64]

def strBytesChars : List Char → List Nat
  | [] => []
  | c :: r => charUtf8 c ++ strBytesChars r

def strBytes (s : String) : List Nat := strBytesChars s.data

/-- Sanity check of the SHA-256 model against the published test vector for
the ASCII message "abc". -/
theorem sha256_test_vector :
    hexEncode (sha256 (strBytes "abc")) =
      "ba7816bf8f01cfea414140de5dae2223b00361a396177a9cb410ff61f20015ad" := by
  decide

/-! ## Data model of `main.rs` -/

/-- The `TokenCommand` subcommand enum: the active authentication policy. -/
inductive TokenCommand where
  | github (secret : String) (events : List String)
  | token (bearer : String)
deriving DecidableEq, Repr

/-- The status codes the handler can place in an `Err((status, ()))` early
return, plus `ok` (200), which it also uses for the soft-ignore path. -/
inductive StatusCode where
  | ok
  | badRequest
  | unauthorized
  | internalServerError
deriving DecidableEq, Repr

/-- The `Updated` enum of `AutoUpdateReponse` (source spelling kept). -/
inductive Updated where
  | False
  | Pending
deriving DecidableEq, Repr

/-- One row of `podman auto-update --format json` output (source struct name
`AutoUpdateReponse`, spelling kept). -/
structure AutoUpdateReponse where
  unit : String
  container : String
  image : String
  container_name : String
  container_id : String
  policy : String
  updated : Updated
deriving DecidableEq, Repr

/-- `std::process::Output` as used by the handler: exit-status success flag,
captured stdout and stderr bytes. -/
structure CommandOutput where
  success : Bool
  stdout : List Nat
  stderr : List Nat
deriving DecidableEq, Repr

/-- A body-stream chunk: either delivered bytes or a stream error (client
disconnect). -/
abbrev Chunk := Except Unit (List Nat)

/-! ## Helper functions mirroring the Rust standard library calls -/

/-- `str::split_once(c)` on the character list: `none` when `c` does not
occur, otherwise the part before the first occurrence and the part after. -/
def splitOnceChars (c : Char) : List Char → Option (List Char × List Char)
  | [] => none
  | x :: xs =>
      if x = c then some ([], xs)
      else (splitOnceChars c xs).map fun p => (x :: p.1, p.2)

/-- `str::split_once(c)` on strings. -/
def splitOnce (s : String) (c : Char) : Option (String × String) :=
  (splitOnceChars c s.data).map fun p => (⟨p.1⟩, ⟨p.2⟩)

/-- The bytes the `while let Some(Ok(b)) = stream.next().await` loop feeds to
the hasher: every chunk in order up to (excluding) the first error chunk or
the end of the stream.  An error chunk silently terminates the loop. -/
def consumeChunks : List Chunk → List Nat
  | [] => []
  | .ok b :: rest => b ++ consumeChunks rest
  | .error _ :: _ => []

/-- Concatenation of a list of byte chunks (the full body, when no chunk
fails). -/
def joinChunks : List (List Nat) → List Nat
  | [] => []
  | b :: r => b ++ joinChunks r

/-- `slice::starts_with`: does `l` begin with `p`? -/
def bytesStartWith : List Nat → List Nat → Bool
  | _, [] => true
  | [], _ :: _ => false
  | x :: xs, y :: ys => x = y && bytesStartWith xs ys

/-- `str::strip_prefix` on character lists: remove `p` from the front of `s`,
or `none` when `s` does not start with `p`. -/
def removeLeadingChars : List Char → List Char → Option (List Char)
  | [], s => some s
  | _ :: _, [] => none
  | p :: ps, c :: cs => if c = p then removeLeadingChars ps cs else none

/-- `str::strip_prefix` on strings. -/
def removeLeading (p s : String) : Option String :=
  (removeLeadingChars p.data s.data).map fun l => ⟨l⟩

/-- `str::trim`: drop leading and trailing whitespace.  (Rust trims the
Unicode White_Space class; `Char.isWhitespace` models the ASCII part, which
is all that bearer tokens contain.) -/
def trimChars (l : List Char) : List Char :=
  ((l.dropWhile Char.isWhitespace).reverse.dropWhile Char.isWhitespace).reverse

/-- `str::trim` on strings. -/
def rustTrim (s : String) : String := ⟨trimChars s.data⟩

/-! ## The authentication phase of `handler` (main.rs lines 102-150)

The big `match (token, auth, github_signature, github_event)` is transcribed
arm by arm, in source order.  The arm-1 guard `t1 == t2.token()` falls
through to arm 2 on failure, which returns `UNAUTHORIZED` for every
`Some(Token)` shape, so it is rendered as an if-then-else whose else branch
is arm 2's result.  `Except.ok ()` means control reaches the
"running update" line; `Except.error s` is the early `return Err((s, ()))`,
where `StatusCode.ok` is the soft-ignore `return Err((StatusCode::OK, ()))`. -/
def authenticate (token : Option TokenCommand) (auth : Option String)
    (githubSignature : Option String) (githubEvent : Option String)
    (body : List Chunk) : Except StatusCode Unit :=
  match token, auth, githubSignature, githubEvent with
  | some (.token t1), some t2, none, none =>
      if t1 = t2 then .ok () else .error .unauthorized
  | some (.token _), _, _, _ => .error .unauthorized
  | some (.github secret events), none, some signature, event =>
      let hashed := sha256 (strBytes secret ++ consumeChunks body)
      match splitOnce signature '=' with
      | none => .error .badRequest
      | some (_, signatureExp) =>
          if hexEncode hashed ≠ signatureExp then .error .unauthorized
          else
            match events, event with
            | [], _ => .ok ()
            | _ :: _, none => .error .badRequest
            | e, some ev => if ¬ e.contains ev then .error .ok else .ok ()
  | some (.github _ _), _, none, _ => .error .badRequest
  | _, _, _, _ => .ok ()

/-- Whether the handler reaches the `tracing::info!("running update")` line
and invokes the external update command. -/
def runsUpdate (token : Option TokenCommand) (auth : Option String)
    (githubSignature : Option String) (githubEvent : Option String)
    (body : List Chunk) : Bool :=
  match authenticate token auth githubSignature githubEvent body with
  | .ok _ => true
  | .error _ => false

/-! ## The update-invocation phase of `handler` (main.rs lines 154-187) -/

/-- Classification of a failed invocation (spec §4.4 / §7 taxonomy). -/
inductive InvocationError where
  | executionFailed
  | parseFailed
deriving DecidableEq, Repr

/-- The invocation phase: `result` is the outcome of
`Command::new("podman").arg("auto-update")...output().await` (`Except.error`
when the process could not be started), `parse` models
`serde_json::from_slice` for `Vec<AutoUpdateReponse>` (`none` on parse
failure).  Non-zero exit or a start failure is `executionFailed`; on success,
stdout not starting with `[` yields the empty list; otherwise the output is
parsed, and a parse failure (the source's `.expect("failed to parse")`
panic) is `parseFailed`. -/
def invoke (result : Except Unit CommandOutput)
    (parse : List Nat → Option (List AutoUpdateReponse)) :
    Except InvocationError (List AutoUpdateReponse) :=
  match result with
  | .error _ => .error .executionFailed
  | .ok c =>
      if c.success then
        if bytesStartWith c.stdout (strBytes "[") then
          match parse c.stdout with
          | some records => .ok records
          | none => .error .parseFailed
        else .ok []
      else .error .executionFailed

instance {ε α : Type} [DecidableEq ε] [DecidableEq α] : DecidableEq (Except ε α) :=
  fun x y =>
    match x, y with
    | .ok a, .ok b =>
        if h : a = b then isTrue (by rw [h])
        else isFalse (by intro hc; cases hc; exact h rfl)
    | .error a, .error b =>
        if h : a = b then isTrue (by rw [h])
        else isFalse (by intro hc; cases hc; exact h rfl)
    | .ok _, .error _ => isFalse (by intro hc; cases hc)
    | .error _, .ok _ => isFalse (by intro hc; cases hc)

/-- The handler's overall observable outcome: either a returned
`Result<Json<Vec<AutoUpdateReponse>>, (StatusCode, ())>` value — `.ok`
renders as a 200 response with a JSON-array body, `.error s` as status `s`
with an empty body — or a panic (the `.expect` on a parse failure). -/
inductive HandlerResult where
  | response (r : Except StatusCode (List AutoUpdateReponse))
  | panic
deriving DecidableEq, Repr

/-- The HTTP status of a returned (non-panic) handler value. -/
def responseStatus : Except StatusCode (List AutoUpdateReponse) → StatusCode
  | .ok _ => .ok
  | .error s => s

/-- The whole `handler`: the authentication phase followed, on success, by
the invocation phase.  `ExecutionFailed` maps to
`Err((INTERNAL_SERVER_ERROR, ()))`; a parse failure panics. -/
def handler (token : Option TokenCommand) (auth : Option String)
    (githubSignature : Option String) (githubEvent : Option String)
    (body : List Chunk) (result : Except Unit CommandOutput)
    (parse : List Nat → Option (List AutoUpdateReponse)) : HandlerResult :=
  match authenticate token auth githubSignature githubEvent body with
  | .error s => .response (.error s)
  | .ok () =>
      match invoke result parse with
      | .error .executionFailed => .response (.error .internalServerError)
      | .error .parseFailed => .panic
      | .ok records => .response (.ok records)

/-! ## The rate-limit key extractor `UserToken::extract` (main.rs 243-251) -/

/-- `tower_governor::GovernorError`, the declared extraction-error type
(never actually produced by `extract`). -/
inductive GovernorError where
  | unableToExtractKey
deriving DecidableEq, Repr

/-- The `Authorization` header as seen by `extract`: absent, present but not
valid UTF-8 (`to_str()` fails), or a UTF-8 string. -/
abbrev AuthHeader := Option (Except Unit String)

/-- `UserToken::extract`: read the `Authorization` header, keep it only if
it is UTF-8, strip the `"Bearer "` prefix, trim the remainder; default to
the empty string at every failure, and always return `Ok`. -/
def extract (header : AuthHeader) : Except GovernorError String :=
  .ok (((header.bind fun v => v.toOption).bind
    fun t => (removeLeading "Bearer " t).map rustTrim).getD "")

/-- The chunks before the first stream error (what the read loop actually
traverses). -/
def okTake : List Chunk → List Chunk
  | [] => []
  | .ok b :: rest => .ok b :: okTake rest
  | .error _ :: _ => []

/-! ## Helper lemmas -/

theorem consumeChunks_okTake (body : List Chunk) :
    consumeChunks (okTake body) = consumeChunks body := by
  induction body with
  | nil => rfl
  | cons c rest ih =>
      cases c with
      | ok b => simp [okTake, consumeChunks, ih]
      | error e => rfl

theorem consumeChunks_map_ok (chunks : List (List Nat)) :
    consumeChunks (chunks.map Except.ok) = joinChunks chunks := by
  induction chunks with
  | nil => rfl
  | cons b rest ih => simp [consumeChunks, joinChunks, ih]

theorem consumeChunks_map_ok_error (chunks : List (List Nat)) :
    consumeChunks (chunks.map Except.ok ++ [Except.error ()]) = joinChunks chunks := by
  induction chunks with
  | nil => rfl
  | cons b rest ih => simp [consumeChunks, joinChunks, ih]

theorem splitOnceChars_not_mem (c : Char) (l : List Char) (h : c ∉ l) :
    splitOnceChars c l = none := by
  induction l with
  | nil => rfl
  | cons x xs ih =>
      simp only [List.mem_cons, not_or] at h
      have hx : ¬ x = c := fun he => h.1 he.symm
      simp [splitOnceChars, hx, ih h.2]

theorem splitOnceChars_append (c : Char) (p s : List Char) (hp : c ∉ p) :
    splitOnceChars c (p ++ c :: s) = some (p, s) := by
  induction p with
  | nil => simp [splitOnceChars]
  | cons x xs ih =>
      simp only [List.mem_cons, not_or] at hp
      have hx : ¬ x = c := fun he => hp.1 he.symm
      simp [splitOnceChars, hx, ih hp.2]

theorem splitOnce_not_mem (s : String) (h : '=' ∉ s.data) :
    splitOnce s '=' = none := by
  unfold splitOnce
  rw [splitOnceChars_not_mem _ _ h]
  rfl

theorem splitOnce_construct (p d : String) (hp : '=' ∉ p.data) :
    splitOnce (p ++ "=" ++ d) '=' = some (p, d) := by
  unfold splitOnce
  have hd : (p ++ "=" ++ d).data = p.data ++ '=' :: d.data := by
    simp [String.data_append]
  rw [hd, splitOnceChars_append _ _ _ hp]
  rfl

theorem removeLeadingChars_append (p s : List Char) :
    removeLeadingChars p (p ++ s) = some s := by
  induction p with
  | nil => rfl
  | cons x xs ih => simp [removeLeadingChars, ih]

theorem removeLeading_append (p rest : String) :
    removeLeading p (p ++ rest) = some rest := by
  unfold removeLeading
  rw [String.data_append, removeLeadingChars_append]
  rfl

/-- The authentication decision reads the body only through `consumeChunks`. -/
theorem authenticate_congr (t : Option TokenCommand) (a s e : Option String)
    (b₁ b₂ : List Chunk) (h : consumeChunks b₁ = consumeChunks b₂) :
    authenticate t a s e b₁ = authenticate t a s e b₂ := by
  unfold authenticate
  rw [h]

/-- Core lemma: under the Github policy with no bearer token, a signature
header of the shape `p ++ "=" ++ hex(sha256(secret ++ consumed-body))` (with
an `=`-free prefix `p`) passes the digest comparison, and the outcome is
decided by the event filter alone. -/
theorem authenticate_github_sig (secret p : String) (hp : '=' ∉ p.data)
    (events : List String) (event : Option String) (body : List Chunk) :
    authenticate (some (.github secret events)) none
      (some (p ++ "=" ++ hexEncode (sha256 (strBytes secret ++ consumeChunks body))))
      event body =
      (match events, event with
       | [], _ => .ok ()
       | _ :: _, none => .error .badRequest
       | e, some ev => if ¬ e.contains ev then .error .ok else .ok ()) := by
  cases event <;> cases events <;>
    (simp only [authenticate]; rw [splitOnce_construct _ _ hp]; simp)

/-! ## Claims -/

/-- Claim C1: the spec's decision table says that under the SignedWebhook
policy any request presenting a bearer token is `Rejected(Unauthorized)`,
and that every unmatched combination fails closed to
`Rejected(Unauthorized)`, never `Authorized`.  The code contradicts this:
with the Github policy, a request presenting BOTH a bearer token and a
signature header matches neither Github arm (one requires the bearer to be
absent, the other the signature to be absent) and falls into the wildcard
arm `_ => {}`, so it is authorized and the update command runs with no
verification at all; and a bearer with the signature header missing returns
`BAD_REQUEST`, not `UNAUTHORIZED`.  This theorem evaluates the code at the
failing inputs. -/
theorem C1_bearer_under_github_fails_open :
    authenticate (some (.github "s" [])) (some "t") (some "x") none [] = .ok () ∧
    runsUpdate (some (.github "s" [])) (some "t") (some "x") none [] = true ∧
    authenticate (some (.github "s" [])) (some "t") none none [] =
      .error .badRequest := by
  decide

/-- Claim C2: round-trip — under the Github policy with no bearer token and
an empty allowed-events list, a signature header formed as any `=`-free
prefix, then `=`, then the lowercase-hex SHA-256 digest of
`secret ++ body`, verifies and the request is authorized, whatever the
event header; the prefix before the first `=` is never checked. -/
theorem C2_signature_roundtrip (secret p : String) (hp : '=' ∉ p.data)
    (chunks : List (List Nat)) (event : Option String) :
    authenticate (some (.github secret [])) none
      (some (p ++ "=" ++ hexEncode (sha256 (strBytes secret ++ joinChunks chunks))))
      event (chunks.map Except.ok) = .ok () := by
  cases event with
  | none =>
      have h := authenticate_github_sig secret p hp [] none (chunks.map Except.ok)
      rw [consumeChunks_map_ok] at h
      exact h
  | some ev =>
      have h := authenticate_github_sig secret p hp [] (some ev) (chunks.map Except.ok)
      rw [consumeChunks_map_ok] at h
      exact h

/-- Witness for C2: secret `"abc"`, prefix `"sha256"`, one body chunk
`"hi"`, no event header. -/
theorem C2_signature_roundtrip_witness :
    authenticate (some (.github "abc" [])) none
      (some ("sha256" ++ "=" ++
        hexEncode (sha256 (strBytes "abc" ++ joinChunks [[104, 105]]))))
      none ([[104, 105]].map Except.ok) = .ok () :=
  C2_signature_roundtrip "abc" "sha256" (by decide) [[104, 105]] none

/-- Claim C3 counterexample: a body whose first chunk yields a stream error
(client disconnect).  The claim says the request is then abandoned, the
partial digest never finalized or compared, and the update command never
invoked; but the code's `while let Some(Ok(b))` loop merely stops at the
error chunk, finalizes the digest over the secret alone, compares it, and
here — the presented signature matching that partial digest — authorizes
the request and reaches the update invocation. -/
theorem C3_error_chunk_compared_counterexample :
    authenticate (some (.github "abc" [])) none
      (some ("sha256=" ++ hexEncode (sha256 (strBytes "abc")))) none
      [Except.error ()] = .ok () ∧
    runsUpdate (some (.github "abc" [])) none
      (some ("sha256=" ++ hexEncode (sha256 (strBytes "abc")))) none
      [Except.error ()] = true := by
  decide

/-- Claim C3 amended: a failing body chunk does not abandon the request.
The hashing loop stops at the first error chunk and the handler proceeds
exactly as if the body ended there (first conjunct); in particular the
digest over the secret and the chunks read so far IS finalized and
compared, and a signature matching that partial digest is authorized
(second conjunct). -/
theorem C3_error_chunk_truncates (t : Option TokenCommand)
    (a s e : Option String) (body : List Chunk) (secret p : String)
    (hp : '=' ∉ p.data) (chunks : List (List Nat)) (event : Option String) :
    authenticate t a s e body = authenticate t a s e (okTake body) ∧
    authenticate (some (.github secret [])) none
      (some (p ++ "=" ++ hexEncode (sha256 (strBytes secret ++ joinChunks chunks))))
      event (chunks.map Except.ok ++ [Except.error ()]) = .ok () := by
  constructor
  · exact authenticate_congr t a s e body (okTake body)
      (consumeChunks_okTake body).symm
  · cases event with
    | none =>
        have h := authenticate_github_sig secret p hp [] none
          (chunks.map Except.ok ++ [Except.error ()])
        rw [consumeChunks_map_ok_error] at h
        exact h
    | some ev =>
        have h := authenticate_github_sig secret p hp [] (some ev)
          (chunks.map Except.ok ++ [Except.error ()])
        rw [consumeChunks_map_ok_error] at h
        exact h

/-- Witness for the amended C3: a body that errors after one chunk, and a
signature over the secret plus the single delivered chunk. -/
theorem C3_error_chunk_truncates_witness :
    (authenticate (some (.github "x" ["push"])) none none none
        [Except.ok [1], Except.error (), Except.ok [2]] =
      authenticate (some (.github "x" ["push"])) none none none
        (okTake [Except.ok [1], Except.error (), Except.ok [2]])) ∧
    authenticate (some (.github "abc" [])) none
      (some ("sha256" ++ "=" ++
        hexEncode (sha256 (strBytes "abc" ++ joinChunks [[104]]))))
      none ([[104]].map Except.ok ++ [Except.error ()]) = .ok () :=
  C3_error_chunk_truncates (some (.github "x" ["push"])) none none none
    [Except.ok [1], Except.error (), Except.ok [2]] "abc" "sha256"
    (by decide) [[104]] none

/-- Claim C4 counterexample: at a soft-ignored event (verifying signature,
non-empty allow-list, present non-member event header) the handler returns
`Err((StatusCode::OK, ()))` — HTTP status 200 with an EMPTY body — which is
not the claimed success value `Ok(Json(vec![]))`, the 200 response whose
body is an empty JSON array. -/
theorem C4_ignored_empty_body_counterexample :
    handler (some (.github "abc" ["push"])) none
      (some ("sha256=" ++ hexEncode (sha256 (strBytes "abc"))))
      (some "pull_request") [] (.ok ⟨true, [], []⟩) (fun _ => none) =
      .response (.error .ok) ∧
    HandlerResult.response (.error .ok) ≠ .response (.ok []) := by
  decide

/-- Claim C4 amended: under the Github policy with no bearer token, a
verifying signature, a non-empty allowed-events list and a present event
header that is not a member, the handler returns `Err((StatusCode::OK, ()))`
— HTTP status 200 with an empty body (not a serialized empty JSON array) —
and the update command is not invoked. -/
theorem C4_ignored_event_soft_reject (secret p : String) (hp : '=' ∉ p.data)
    (e : String) (es : List String) (ev : String)
    (hev : (e :: es).contains ev = false) (body : List Chunk)
    (result : Except Unit CommandOutput)
    (parse : List Nat → Option (List AutoUpdateReponse)) :
    handler (some (.github secret (e :: es))) none
      (some (p ++ "=" ++ hexEncode (sha256 (strBytes secret ++ consumeChunks body))))
      (some ev) body result parse = .response (.error .ok) ∧
    responseStatus (.error .ok) = .ok ∧
    runsUpdate (some (.github secret (e :: es))) none
      (some (p ++ "=" ++ hexEncode (sha256 (strBytes secret ++ consumeChunks body))))
      (some ev) body = false := by
  have h : authenticate (some (.github secret (e :: es))) none
      (some (p ++ "=" ++ hexEncode (sha256 (strBytes secret ++ consumeChunks body))))
      (some ev) body =
      if ¬ (e :: es).contains ev = true then .error .ok else .ok () :=
    authenticate_github_sig secret p hp (e :: es) (some ev) body
  rw [hev] at h
  simp only [Bool.false_eq_true, not_false_iff, if_true] at h
  refine ⟨?_, rfl, ?_⟩
  · simp [handler, h]
  · simp [runsUpdate, h]

/-- Witness for the amended C4 at secret `"abc"`, allow-list `["push"]`,
event `"pull"`. -/
theorem C4_ignored_event_soft_reject_witness :
    handler (some (.github "abc" ["push"])) none
      (some ("sha256" ++ "=" ++
        hexEncode (sha256 (strBytes "abc" ++ consumeChunks []))))
      (some "pull") [] (.ok ⟨true, [], []⟩) (fun _ => none) =
      .response (.error .ok) ∧
    responseStatus (.error .ok) = .ok ∧
    runsUpdate (some (.github "abc" ["push"])) none
      (some ("sha256" ++ "=" ++
        hexEncode (sha256 (strBytes "abc" ++ consumeChunks []))))
      (some "pull") [] = false :=
  C4_ignored_event_soft_reject "abc" "sha256" (by decide) "push" [] "pull"
    (by decide) [] (.ok ⟨true, [], []⟩) (fun _ => none)

/-- Claim C5 counterexample: with the StaticToken policy and the correct
bearer, a request that also carries a signature header is rejected with
`UNAUTHORIZED`, refuting "presenting bearer exactly T yields Authorized"
for every request. -/
theorem C5_matching_bearer_with_signature_rejected :
    authenticate (some (.token "T")) (some "T") (some "x") none [] =
      .error .unauthorized := by
  decide

/-- Claim C5 amended: under `StaticToken{expected=T}`: bearer exactly `T`
with no signature header and no event header is authorized; bearer
`T2 ≠ T` is rejected `Unauthorized` whatever the other headers; a missing
bearer is rejected `Unauthorized` whatever the other headers. -/
theorem C5_static_token_decision (t t2 : String) (h : t2 ≠ t)
    (sig event : Option String) (body : List Chunk) :
    authenticate (some (.token t)) (some t) none none body = .ok () ∧
    authenticate (some (.token t)) (some t2) sig event body =
      .error .unauthorized ∧
    authenticate (some (.token t)) none sig event body =
      .error .unauthorized := by
  have h' : ¬ t = t2 := fun he => h he.symm
  refine ⟨?_, ?_, ?_⟩
  · simp [authenticate]
  · cases sig <;> cases event <;> simp [authenticate, h']
  · cases sig <;> cases event <;> simp [authenticate]

/-- Witness for the amended C5 at expected token `"tok"` and wrong bearer
`"bad"`. -/
theorem C5_static_token_decision_witness :
    authenticate (some (.token "tok")) (some "tok") none none [] = .ok () ∧
    authenticate (some (.token "tok")) (some "bad") (some "s") (some "e") [] =
      .error .unauthorized ∧
    authenticate (some (.token "tok")) none (some "s") (some "e") [] =
      .error .unauthorized :=
  C5_static_token_decision "tok" "bad" (by decide) (some "s") (some "e") []

/-- Claim C6: under the Github policy with no bearer token and a verifying
signature: an empty allowed-events list authorizes regardless of the event
header; a non-empty list with the event header absent is rejected
`BadRequest`; a non-empty list with the event header present and a member
is authorized. -/
theorem C6_event_filter_decision (secret p : String) (hp : '=' ∉ p.data)
    (body : List Chunk) (event : Option String) (e : String)
    (es : List String) (ev : String) (hev : (e :: es).contains ev = true) :
    authenticate (some (.github secret [])) none
      (some (p ++ "=" ++ hexEncode (sha256 (strBytes secret ++ consumeChunks body))))
      event body = .ok () ∧
    authenticate (some (.github secret (e :: es))) none
      (some (p ++ "=" ++ hexEncode (sha256 (strBytes secret ++ consumeChunks body))))
      none body = .error .badRequest ∧
    authenticate (some (.github secret (e :: es))) none
      (some (p ++ "=" ++ hexEncode (sha256 (strBytes secret ++ consumeChunks body))))
      (some ev) body = .ok () := by
  refine ⟨?_, ?_, ?_⟩
  · cases event with
    | none => exact authenticate_github_sig secret p hp [] none body
    | some ev0 => exact authenticate_github_sig secret p hp [] (some ev0) body
  · exact authenticate_github_sig secret p hp (e :: es) none body
  · have h : authenticate (some (.github secret (e :: es))) none
        (some (p ++ "=" ++ hexEncode (sha256 (strBytes secret ++ consumeChunks body))))
        (some ev) body =
        if ¬ (e :: es).contains ev = true then .error .ok else .ok () :=
      authenticate_github_sig secret p hp (e :: es) (some ev) body
    rw [hev] at h
    simpa using h

/-- Witness for C6 at secret `"abc"`, allow-list `["push"]`, event
`"push"`. -/
theorem C6_event_filter_decision_witness :
    authenticate (some (.github "abc" [])) none
      (some ("sha256" ++ "=" ++
        hexEncode (sha256 (strBytes "abc" ++ consumeChunks []))))
      none [] = .ok () ∧
    authenticate (some (.github "abc" ["push"])) none
      (some ("sha256" ++ "=" ++
        hexEncode (sha256 (strBytes "abc" ++ consumeChunks []))))
      none [] = .error .badRequest ∧
    authenticate (some (.github "abc" ["push"])) none
      (some ("sha256" ++ "=" ++
        hexEncode (sha256 (strBytes "abc" ++ consumeChunks []))))
      (some "push") [] = .ok () :=
  C6_event_filter_decision "abc" "sha256" (by decide) [] none "push" []
    "push" (by decide)

/-- Claim C7: under the Github policy with no bearer token, a missing
signature header is rejected `BadRequest`, and a signature header whose
value contains no `=` is also rejected `BadRequest` (malformed) — in both
cases neither `Unauthorized` nor authorized. -/
theorem C7_missing_or_malformed_signature (secret : String)
    (events : List String) (event : Option String) (body : List Chunk)
    (sig : String) (hs : '=' ∉ sig.data) :
    authenticate (some (.github secret events)) none none event body =
      .error .badRequest ∧
    authenticate (some (.github secret events)) none (some sig) event body =
      .error .badRequest := by
  constructor
  · cases event <;> simp [authenticate]
  · cases event <;>
      (simp only [authenticate]; rw [splitOnce_not_mem _ hs])

/-- Witness for C7 at secret `"abc"` and the delimiter-free signature
header value `"nodelim"`. -/
theorem C7_missing_or_malformed_signature_witness :
    authenticate (some (.github "abc" ["push"])) none none (some "push") [] =
      .error .badRequest ∧
    authenticate (some (.github "abc" ["push"])) none (some "nodelim")
      (some "push") [] = .error .badRequest :=
  C7_missing_or_malformed_signature "abc" ["push"] (some "push") [] "nodelim"
    (by decide)

/-- Claim C8: the Update Invoker's classification.  A process-start failure
or a non-zero exit yields `ExecutionFailed`, which the handler maps to an
internal-error (500) response; a successful exit whose stdout does not
begin with `[` yields a successful empty list; a successful exit whose
stdout begins with `[` yields the parsed records, and a parse failure at
that point is fatal (the `.expect` panic). -/
theorem C8_invoker_classification
    (parseG parseN : List Nat → Option (List AutoUpdateReponse))
    (c1 c2 c3 : CommandOutput) (records : List AutoUpdateReponse)
    (h1 : c1.success = false)
    (h2 : c2.success = true)
    (h2b : bytesStartWith c2.stdout (strBytes "[") = false)
    (h3 : c3.success = true)
    (h3b : bytesStartWith c3.stdout (strBytes "[") = true)
    (hg : parseG c3.stdout = some records)
    (hn : parseN c3.stdout = none) :
    invoke (.error ()) parseG = .error .executionFailed ∧
    invoke (.ok c1) parseG = .error .executionFailed ∧
    invoke (.ok c2) parseG = .ok [] ∧
    invoke (.ok c3) parseG = .ok records ∧
    invoke (.ok c3) parseN = .error .parseFailed ∧
    handler none none none none [] (.error ()) parseG =
      .response (.error .internalServerError) ∧
    handler none none none none [] (.ok c1) parseG =
      .response (.error .internalServerError) ∧
    handler none none none none [] (.ok c3) parseN = .panic ∧
    handler none none none none [] (.ok c3) parseG = .response (.ok records) := by
  refine ⟨rfl, ?_, ?_, ?_, ?_, rfl, ?_, ?_, ?_⟩ <;>
    simp [invoke, handler, authenticate, h1, h2, h2b, h3, h3b, hg, hn]

/-- Witness for C8: start failure, exit code 1, success with non-array
stdout `"no updates"`, success with array stdout `"[]"`, a parser that
yields `[]`, and a parser that fails. -/
theorem C8_invoker_classification_witness :
    invoke (.error ()) (fun _ => some []) = .error .executionFailed ∧
    invoke (.ok ⟨false, [], []⟩) (fun _ => some []) =
      .error .executionFailed ∧
    invoke (.ok ⟨true, strBytes "no updates", []⟩) (fun _ => some []) =
      .ok [] ∧
    invoke (.ok ⟨true, strBytes "[]", []⟩) (fun _ => some []) = .ok [] ∧
    invoke (.ok ⟨true, strBytes "[]", []⟩) (fun _ => none) =
      .error .parseFailed ∧
    handler none none none none [] (.error ()) (fun _ => some []) =
      .response (.error .internalServerError) ∧
    handler none none none none [] (.ok ⟨false, [], []⟩) (fun _ => some []) =
      .response (.error .internalServerError) ∧
    handler none none none none [] (.ok ⟨true, strBytes "[]", []⟩)
      (fun _ => none) = .panic ∧
    handler none none none none [] (.ok ⟨true, strBytes "[]", []⟩)
      (fun _ => some []) = .response (.ok []) :=
  C8_invoker_classification (fun _ => some []) (fun _ => none)
    ⟨false, [], []⟩ ⟨true, strBytes "no updates", []⟩
    ⟨true, strBytes "[]", []⟩ [] rfl rfl (by decide) rfl (by decide) rfl rfl

/-- Claim C9: `UserToken::extract` is total and never fails: it always
returns `Ok`; a well-formed `Bearer ` value yields the trimmed remainder;
an absent header, a non-UTF-8 header, or a value lacking the `Bearer `
prefix yields the empty string. -/
theorem C9_extract_total (header : AuthHeader) (rest s : String)
    (hs : removeLeading "Bearer " s = none) :
    (∃ k, extract header = .ok k) ∧
    extract (some (.ok ("Bearer " ++ rest))) = .ok (rustTrim rest) ∧
    extract none = .ok "" ∧
    extract (some (.error ())) = .ok "" ∧
    extract (some (.ok s)) = .ok "" := by
  refine ⟨⟨_, rfl⟩, ?_, rfl, rfl, ?_⟩
  · simp [extract, Except.toOption, removeLeading_append]
  · simp [extract, Except.toOption, hs]

/-- Witness for C9: a padded bearer value, and the prefix-free value
`"token abc"`. -/
theorem C9_extract_total_witness :
    (∃ k, extract (some (.ok "Bearer  tok ")) = .ok k) ∧
    extract (some (.ok ("Bearer " ++ " tok "))) = .ok (rustTrim " tok ") ∧
    extract none = .ok "" ∧
    extract (some (.error ())) = .ok "" ∧
    extract (some (.ok "token abc")) = .ok "" :=
  C9_extract_total (some (.ok "Bearer  tok ")) " tok " "token abc" (by decide)

/-- Claim C10: under the StaticToken policy a request presenting the
matching bearer is authorized exactly when both the signature header and
the event header are absent; if either is present alongside the matching
bearer, the request is rejected `Unauthorized`. -/
theorem C10_static_token_requires_bare_request (t : String)
    (body : List Chunk) (sigv evv : String) :
    authenticate (some (.token t)) (some t) none none body = .ok () ∧
    authenticate (some (.token t)) (some t) (some sigv) none body =
      .error .unauthorized ∧
    authenticate (some (.token t)) (some t) none (some evv) body =
      .error .unauthorized ∧
    authenticate (some (.token t)) (some t) (some sigv) (some evv) body =
      .error .unauthorized := by
  refine ⟨?_, ?_, ?_, ?_⟩ <;> simp [authenticate]

end PodmanHook
